import Mathlib

/-!
Verification of the rz_easyfpga board support files (litex-boards):
the pin table of `platforms/rz_easyfpga.py`, the `_CRG` of
`targets/rz_easyfpga.py`, and the platform request / command model they
rely on.
-/

set_option maxRecDepth 4000

/-- One named sub-signal of a resource, as written with `Subsignal(name, Pins(...))`
in the pin table. Pin identifiers are kept as the strings of the source. -/
structure Subsig where
  subname : String
  pins : List String
deriving DecidableEq, Repr

/-- One resource declaration of the `_io` table: logical name, instance index,
direct pins (for a single unnamed signal), named sub-signals, and the I/O
standard that applies to the entry. -/
structure PinSpec where
  name : String
  index : Nat
  pins : List String
  subsignals : List Subsig
  std : String
deriving DecidableEq, Repr

/-- The `_io` pin table of `platforms/rz_easyfpga.py`, transcribed entry by
entry. `Pins("a b c")` becomes the list of its whitespace-separated tokens. -/
def _io : List PinSpec := [
  ⟨"clk50", 0, ["23"], [], "3.3-V LVTTL"⟩,
  ⟨"rst_n", 0, ["25"], [], "3.3-V LVTTL"⟩,
  ⟨"user_led", 0, ["84"], [], "3.3-V LVTTL"⟩,
  ⟨"user_led", 1, ["85"], [], "3.3-V LVTTL"⟩,
  ⟨"user_led", 2, ["86"], [], "3.3-V LVTTL"⟩,
  ⟨"user_led", 3, ["87"], [], "3.3-V LVTTL"⟩,
  ⟨"key", 0, ["88"], [], "3.3-V LVTTL"⟩,
  ⟨"key", 1, ["89"], [], "3.3-V LVTTL"⟩,
  ⟨"key", 2, ["90"], [], "3.3-V LVTTL"⟩,
  ⟨"key", 3, ["91"], [], "3.3-V LVTTL"⟩,
  ⟨"buzzer", 0, ["110"], [], "3.3-V LVTTL"⟩,
  ⟨"temp_i2c", 0, [], [⟨"scl", ["112"]⟩, ⟨"sda", ["113"]⟩], "3.3-V LVTTL"⟩,
  ⟨"eeprom_i2c", 0, [], [⟨"scl", ["99"]⟩, ⟨"sda", ["98"]⟩], "3.3-V LVTTL"⟩,
  ⟨"spiflash", 0, [],
    [⟨"cs_n", ["8"]⟩, ⟨"clk", ["12"]⟩, ⟨"mosi", ["6"]⟩, ⟨"miso", ["13"]⟩],
    "3.3-V LVTTL"⟩,
  ⟨"serial", 0, [], [⟨"tx", ["114"]⟩, ⟨"rx", ["119"]⟩], "3.3-V LVTTL"⟩,
  ⟨"vga", 0, [],
    [⟨"hsync", ["101"]⟩, ⟨"vsync", ["103"]⟩, ⟨"r", ["106"]⟩,
     ⟨"g", ["105"]⟩, ⟨"b", ["104"]⟩],
    "3.3-V LVTTL"⟩,
  ⟨"lcd_display", 0, [],
    [⟨"data", ["142", "1", "144", "3", "2", "10", "7", "11"]⟩,
     ⟨"rs", ["141"]⟩, ⟨"rw", ["138"]⟩, ⟨"e", ["143"]⟩],
    "3.3-V LVTTL"⟩,
  ⟨"segled", 0, [],
    [⟨"ca", ["128"]⟩, ⟨"cb", ["121"]⟩, ⟨"cc", ["125"]⟩, ⟨"cd", ["129"]⟩,
     ⟨"ce", ["132"]⟩, ⟨"cf", ["126"]⟩, ⟨"cg", ["124"]⟩, ⟨"dp", ["127"]⟩,
     ⟨"digits", ["133", "135", "136", "137"]⟩],
    "3.3-V LVTTL"⟩,
  ⟨"ps2", 0, [], [⟨"clk", ["119"]⟩, ⟨"data", ["120"]⟩], "3.3-V LVTTL"⟩,
  ⟨"irda", 0, [], [⟨"rxd", ["100"]⟩], "3.3-V LVTTL"⟩,
  ⟨"gpio", 0, ["24", "111"], [], "3.3-V LVTTL"⟩,
  ⟨"sdram_clock", 0, ["43"], [], "3.3-V LVTTL"⟩,
  ⟨"sdram", 0, [],
    [⟨"a", ["76", "77", "80", "83", "68", "67", "66", "65",
            "64", "60", "75", "59"]⟩,
     ⟨"ba", ["73", "74"]⟩, ⟨"cs_n", ["72"]⟩, ⟨"cke", ["58"]⟩,
     ⟨"ras_n", ["71"]⟩, ⟨"cas_n", ["70"]⟩, ⟨"we_n", ["69"]⟩,
     ⟨"dq", ["28", "30", "31", "32", "33", "34", "38", "39",
             "54", "53", "52", "51", "50", "49", "46", "44"]⟩,
     ⟨"dm", ["42", "55"]⟩],
    "3.3-V LVTTL"⟩]

/-- All physical pin identifiers a PinSpec references, across its direct pins
and all of its sub-signals. -/
def pinsOf (s : PinSpec) : List String :=
  s.pins ++ s.subsignals.foldr (fun sub acc => sub.pins ++ acc) []

/-- Two PinSpec entries reference disjoint sets of physical pins. -/
def disjointPins (a b : PinSpec) : Bool :=
  (pinsOf a).all (fun p => !((pinsOf b).contains p))

/-- Every two distinct entries of the list reference disjoint pin sets. -/
def pairwiseDisjoint : List PinSpec → Bool
  | [] => true
  | a :: rest => rest.all (disjointPins a) && pairwiseDisjoint rest

/-- Pairwise disjointness, tolerating exactly the serial/ps2 pair. -/
def okPair (a b : PinSpec) : Bool :=
  (a.name == "serial" && b.name == "ps2") ||
  (a.name == "ps2" && b.name == "serial") ||
  disjointPins a b

/-- Every two distinct entries either reference disjoint pin sets or are the
serial and ps2 entries. -/
def pairwiseOk : List PinSpec → Bool
  | [] => true
  | a :: rest => rest.all (okPair a) && pairwiseOk rest

/-- Errors of the platform request resolver (spec §4.2, §7). -/
inductive ReqError where
  | AlreadyRequested
  | UnknownResource
deriving DecidableEq, Repr

/-- Modelled from the spec: the Pin Constraint Registry operation
`lookup(name, index) -> PinSpec or NotFound` (spec §4.1) over the static
`_io` table; the resolver implementation lives in litex's generic platform,
outside this repository's sources. -/
def lookup (name : String) (index : Nat) : Option PinSpec :=
  _io.find? (fun e => e.name == name && e.index == index)

/-- The consumed-set of the Platform Request Resolver: the (name, index)
pairs already resolved during one build invocation. -/
structure ResolverState where
  consumed : List (String × Nat)
deriving DecidableEq, Repr

/-- Whether a (name, index) pair is already in the consumed-set. -/
def requested (st : ResolverState) (name : String) (index : Nat) : Bool :=
  st.consumed.any (fun p => p.1 == name && p.2 == index)

/-- Modelled from the spec: `request(name, index=0) -> ResourceHandle`
(spec §4.2) — resolves via the Registry, marks the pair consumed, fails with
`AlreadyRequested` on a duplicate and `UnknownResource` when the lookup
fails; litex's resolver code is not under this repository's sources. A
failed request leaves the consumed-set unchanged. -/
def request (st : ResolverState) (name : String) (index : Nat) :
    Except ReqError PinSpec × ResolverState :=
  match lookup name index with
  | none => (.error .UnknownResource, st)
  | some spec =>
    if requested st name index then (.error .AlreadyRequested, st)
    else (.ok spec, ⟨st.consumed ++ [(name, index)]⟩)

/-- Modelled from the spec: `lookup_request(name, index=0, loose) ->
ResourceHandle or None` (spec §4.2) — like `request`, but with `loose=true`
an unmapped resource yields `none` instead of an error; litex's resolver
code is not under this repository's sources. -/
def lookup_request (st : ResolverState) (name : String) (index : Nat)
    (loose : Bool) : Except ReqError (Option PinSpec) × ResolverState :=
  match request st name index with
  | (.error .UnknownResource, st') =>
    if loose then (.ok none, st') else (.error .UnknownResource, st')
  | (.error e, st') => (.error e, st')
  | (.ok spec, st') => (.ok (some spec), st')

/-- A clock domain as created by `_CRG.__init__`: its name and whether it was
constructed with `reset_less=True` (`ClockDomain()` defaults to a domain with
a reset network). -/
structure ClockDomain where
  name : String
  reset_less : Bool
deriving DecidableEq, Repr

/-- One `pll.create_clkout(cd, freq, phase)` call: target domain name,
frequency in Hz and phase in degrees (`phase=0` when omitted). -/
structure ClkOut where
  domain : String
  freq : Nat
  phase : Nat
deriving DecidableEq, Repr

/-- The `DDROutput(1, 0, pad, clk)` special of the CRG: the two half-cycle
data values, the requested pad and the clock signal's domain name. -/
structure DDROut where
  i1 : Nat
  i2 : Nat
  pad : PinSpec
  clk : String
deriving DecidableEq, Repr

/-- The observable result of constructing `_CRG`: the clock domains in
creation order, the `register_clkin` calls, the `create_clkout` calls in
call order, and the SDRAM clock DDR output. -/
structure CRG where
  clock_domains : List ClockDomain
  clkin : List (PinSpec × Nat)
  clkouts : List ClkOut
  ddr : DDROut
deriving DecidableEq, Repr

/-- The combinational assignment `pll.reset.eq(self.rst | ~rst_n)` of
`_CRG.__init__` (targets/rz_easyfpga.py line 51), on 1-bit signals. -/
def pll_reset (rst rst_n : Bool) : Bool := rst || !rst_n

/-- `_CRG.__init__(platform, sys_clk_freq, sdram_rate)` of
targets/rz_easyfpga.py, threading the platform's resolver state through the
three `platform.request` calls. The clock domains, clkouts, SDRAM clock
choice and DDR output follow the source line by line; frequencies are in Hz
and phases in degrees. -/
def CRG_init (st : ResolverState) (sys_clk_freq : Nat) (sdram_rate : String) :
    Except ReqError (CRG × ResolverState) :=
  let domains :=
    [ClockDomain.mk "sys" false] ++
    (if sdram_rate == "1:2" then
      [ClockDomain.mk "sys2x" false, ClockDomain.mk "sys2x_ps" true]
    else
      [ClockDomain.mk "sys_ps" true])
  match request st "clk50" 0 with
  | (.error e, _) => .error e
  | (.ok clk50, st1) =>
  match request st1 "rst_n" 0 with
  | (.error e, _) => .error e
  | (.ok _, st2) =>
  let clkouts :=
    [ClkOut.mk "sys" sys_clk_freq 0] ++
    (if sdram_rate == "1:2" then
      [ClkOut.mk "sys2x" (2 * sys_clk_freq) 0,
       ClkOut.mk "sys2x_ps" (2 * sys_clk_freq) 270]
    else
      [ClkOut.mk "sys_ps" sys_clk_freq 180])
  let sdram_clk := if sdram_rate == "1:2" then "sys2x_ps" else "sys_ps"
  match request st2 "sdram_clock" 0 with
  | (.error e, _) => .error e
  | (.ok sdram_clock_pad, st3) =>
    .ok (⟨domains, [(clk50, 50000000)], clkouts,
          ⟨1, 0, sdram_clock_pad, sdram_clk⟩⟩, st3)

/-- Modelled from the spec: the Constraint Emitter's
`emit(command) -> void` (spec §4.4), appending one directive to the ordered
sequence; litex's `add_platform_command` accumulator is not under this
repository's sources. -/
def emit (cmds : List String) (c : String) : List String := cmds ++ [c]

/-- The eight platform commands of `Platform.__init__`
(platforms/rz_easyfpga.py lines 147-154), in source order. -/
def platformCommands : List String :=
  ["set_global_assignment -name FAMILY \"Cyclone IV E\"",
   "set_global_assignment -name RESERVE_DATA0_AFTER_CONFIGURATION \"USE AS REGULAR IO\"",
   "set_global_assignment -name RESERVE_DATA1_AFTER_CONFIGURATION \"USE AS REGULAR IO\"",
   "set_global_assignment -name RESERVE_DCLK_AFTER_CONFIGURATION \"USE AS REGULAR IO\"",
   "set_global_assignment -name CYCLONEII_RESERVE_NCEO_AFTER_CONFIGURATION \"USE AS REGULAR IO\"",
   "set_global_assignment -name RESERVE_FLASH_NCE_AFTER_CONFIGURATION \"USE AS REGULAR IO\"",
   "set_global_assignment -name ENABLE_BOOT_SEL_PIN ON",
   "set_global_assignment -name ENABLE_CONFIGURATION_PINS ON"]

/-- The directive sequence accumulated by `Platform.__init__`: the eight
`add_platform_command` calls applied in order to the fresh empty sequence. -/
def platformInitCmds : List String := List.foldl emit [] platformCommands


/-- Helper: any `sdram_rate` that is not the string "1:2" takes the same
branch as "1:1" everywhere in `CRG_init`. -/
theorem CRG_init_fallback (st : ResolverState) (f : Nat) (r : String)
    (h : (r == "1:2") = false) :
    CRG_init st f r = CRG_init st f "1:1" := by
  unfold CRG_init
  rw [h]
  rfl

/-- C4: constructing the CRG with `sdram_rate="1:1"` and system frequency f
creates exactly the two clock domains `sys` (with a reset network) at f and
`sys_ps` (reset-less) at f with a 180-degree phase offset. -/
theorem C4_crg_one_to_one (f : Nat) :
    (CRG_init ⟨[]⟩ f "1:1").toOption.map
        (fun p => (p.1.clock_domains, p.1.clkouts)) =
      some ([⟨"sys", false⟩, ⟨"sys_ps", true⟩],
            [⟨"sys", f, 0⟩, ⟨"sys_ps", f, 180⟩]) := rfl

/-- C3 counterexample: with `sdram_rate="1:2"` the `sys2x` domain is created
by `ClockDomain()` with a reset network, not reset-less as the claim
states. -/
theorem C3_counterexample :
    (CRG_init ⟨[]⟩ 50000000 "1:2").toOption.map
        (fun p => p.1.clock_domains.find? (fun cd => cd.name == "sys2x")) =
      some (some ⟨"sys2x", false⟩) ∧
    (⟨"sys2x", false⟩ : ClockDomain) ≠ ⟨"sys2x", true⟩ := by
  exact ⟨rfl, by decide⟩

/-- C3 amended: with `sdram_rate="1:2"` and system frequency f the CRG
creates exactly three clock domains: `sys` at f with a reset network,
`sys2x` at 2f with a reset network (not reset-less) and phase 0, and
`sys2x_ps` reset-less at 2f with phase 270 degrees. -/
theorem C3_crg_one_to_two (f : Nat) :
    (CRG_init ⟨[]⟩ f "1:2").toOption.map
        (fun p => (p.1.clock_domains, p.1.clkouts)) =
      some ([⟨"sys", false⟩, ⟨"sys2x", false⟩, ⟨"sys2x_ps", true⟩],
            [⟨"sys", f, 0⟩, ⟨"sys2x", 2 * f, 0⟩, ⟨"sys2x_ps", 2 * f, 270⟩]) :=
  rfl

/-- C5: the PLL reset input `self.rst | ~rst_n` is asserted exactly when the
soft reset is asserted or the active-low external reset wire is low. -/
theorem C5_pll_reset_eq (rst rst_n : Bool) :
    pll_reset rst rst_n = true ↔ (rst = true ∨ rst_n = false) := by
  cases rst <;> cases rst_n <;> simp [pll_reset]

/-- C6: the CRG drives the requested `sdram_clock` pad (pin 43) through
`DDROutput(1, 0, ...)` clocked by `sys2x_ps` when `sdram_rate="1:2"` and by
`sys_ps` otherwise. -/
theorem C6_sdram_clock_ddr (f : Nat) (r : String) :
    (CRG_init ⟨[]⟩ f r).toOption.map (fun p => p.1.ddr) =
      some ⟨1, 0, ⟨"sdram_clock", 0, ["43"], [], "3.3-V LVTTL"⟩,
            if r == "1:2" then "sys2x_ps" else "sys_ps"⟩ := by
  cases h : (r == "1:2") with
  | true =>
    have hr : r = "1:2" := by simpa using h
    subst hr
    rfl
  | false =>
    rw [CRG_init_fallback ⟨[]⟩ f r h, if_neg (by simp [h])]
    rfl

/-- C1 counterexample: constructing the CRG with the invalid value
`sdram_rate="1:4"` does not fail; it returns successfully with the `sys` and
`sys_ps` clock domains created. -/
theorem C1_counterexample :
    (CRG_init ⟨[]⟩ 50000000 "1:4").toOption.map
        (fun p => p.1.clock_domains) =
      some [⟨"sys", false⟩, ⟨"sys_ps", true⟩] := rfl

/-- C1 amended: for every `sdram_rate` value other than "1:2", constructing
the CRG raises no error: it succeeds and is identical to the "1:1"
construction, creating the `sys` and `sys_ps` clock domains. -/
theorem C1_no_failure_fallback (f : Nat) (r : String) (h : r ≠ "1:2") :
    CRG_init ⟨[]⟩ f r = CRG_init ⟨[]⟩ f "1:1" ∧
    (CRG_init ⟨[]⟩ f r).toOption.map (fun p => p.1.clock_domains) =
      some [⟨"sys", false⟩, ⟨"sys_ps", true⟩] := by
  have e := CRG_init_fallback ⟨[]⟩ f r (beq_eq_false_iff_ne.mpr h)
  exact ⟨e, by rw [e]; rfl⟩

/-- C1 witness: the amended statement at `sdram_rate="1:4"`. -/
theorem C1_no_failure_fallback_witness :
    CRG_init ⟨[]⟩ 50000000 "1:4" = CRG_init ⟨[]⟩ 50000000 "1:1" ∧
    (CRG_init ⟨[]⟩ 50000000 "1:4").toOption.map
        (fun p => p.1.clock_domains) =
      some [⟨"sys", false⟩, ⟨"sys_ps", true⟩] :=
  C1_no_failure_fallback 50000000 "1:4" (by decide)

/-- C10: for every `sdram_rate` value that is not "1:2" the CRG construction
is identical to the "1:1" construction, from any resolver state and system
frequency, with no error raised. -/
theorem C10_invalid_rate_like_one_to_one (st : ResolverState) (f : Nat)
    (r : String) (h : r ≠ "1:2") :
    CRG_init st f r = CRG_init st f "1:1" :=
  CRG_init_fallback st f r (beq_eq_false_iff_ne.mpr h)

/-- C10 witness: the empty string behaves like "1:1". -/
theorem C10_invalid_rate_witness :
    CRG_init ⟨[]⟩ 50000000 "" = CRG_init ⟨[]⟩ 50000000 "1:1" :=
  C10_invalid_rate_like_one_to_one ⟨[]⟩ 50000000 "" (by decide)

/-- C2 counterexample: the pin sets of the `_io` entries are not pairwise
disjoint — the serial entry and the ps2 entry both reference physical pin
"119" (serial.rx and ps2.clk). -/
theorem C2_counterexample :
    pairwiseDisjoint _io = false ∧
    (lookup "serial" 0).map (fun s => (pinsOf s).contains "119") = some true ∧
    (lookup "ps2" 0).map (fun s => (pinsOf s).contains "119") = some true := by
  exact ⟨by decide, rfl, rfl⟩

/-- C2 amended: every two distinct `_io` entries reference disjoint pin
sets, except the serial and ps2 entries, which share exactly the physical
pin "119". -/
theorem C2_disjoint_except_serial_ps2 :
    pairwiseOk _io = true ∧
    ((lookup "serial" 0).bind (fun s => (lookup "ps2" 0).map (fun t =>
        (pinsOf s).filter (fun p => (pinsOf t).contains p)))) =
      some ["119"] := by
  exact ⟨by decide, rfl⟩

/-- C7: for a (name, index) pair present in the registry and not yet
consumed, `request` succeeds and appends the pair to the consumed-set, and a
second `request` of the same pair fails with `AlreadyRequested`, leaving the
consumed-set unchanged. -/
theorem C7_request_exactly_once (name : String) (index : Nat)
    (spec : PinSpec) (st : ResolverState)
    (hl : lookup name index = some spec)
    (hn : requested st name index = false) :
    request st name index =
      (.ok spec, ⟨st.consumed ++ [(name, index)]⟩) ∧
    request ⟨st.consumed ++ [(name, index)]⟩ name index =
      (.error .AlreadyRequested, ⟨st.consumed ++ [(name, index)]⟩) := by
  have h2 : requested ⟨st.consumed ++ [(name, index)]⟩ name index = true := by
    simp [requested]
  constructor
  · simp [request, hl, hn]
  · simp [request, hl, h2]

/-- C7 witness: requesting ("user_led", 2) from a fresh resolver. -/
theorem C7_request_exactly_once_witness :
    request ⟨[]⟩ "user_led" 2 =
      (.ok ⟨"user_led", 2, ["86"], [], "3.3-V LVTTL"⟩, ⟨[("user_led", 2)]⟩) ∧
    request ⟨[("user_led", 2)]⟩ "user_led" 2 =
      (.error .AlreadyRequested, ⟨[("user_led", 2)]⟩) :=
  C7_request_exactly_once "user_led" 2
    ⟨"user_led", 2, ["86"], [], "3.3-V LVTTL"⟩ ⟨[]⟩ rfl rfl

/-- C8: for a logical name with no entry in the registry,
`lookup_request` with `loose=true` returns no handle and leaves the state
unchanged without error, while with `loose=false` it fails with
`UnknownResource`, exactly as `request` does. -/
theorem C8_loose_lookup_request (name : String) (i : Nat)
    (st : ResolverState)
    (h : _io.all (fun e => !(e.name == name)) = true) :
    lookup_request st name i true = (.ok none, st) ∧
    lookup_request st name i false = (.error .UnknownResource, st) ∧
    request st name i = (.error .UnknownResource, st) := by
  have hl : lookup name i = none := by
    rw [lookup, List.find?_eq_none]
    intro e he
    have he' := List.all_eq_true.mp h e he
    simp only [Bool.not_eq_eq_eq_not, Bool.not_true] at he'
    simp [he']
  refine ⟨?_, ?_, ?_⟩ <;> simp [lookup_request, request, hl]

/-- C8 witness: the unmapped name "missing_clock" from a fresh resolver. -/
theorem C8_loose_lookup_request_witness :
    lookup_request ⟨[]⟩ "missing_clock" 0 true = (.ok none, ⟨[]⟩) ∧
    lookup_request ⟨[]⟩ "missing_clock" 0 false =
      (.error .UnknownResource, ⟨[]⟩) ∧
    request ⟨[]⟩ "missing_clock" 0 = (.error .UnknownResource, ⟨[]⟩) :=
  C8_loose_lookup_request "missing_clock" 0 ⟨[]⟩ (by decide)

/-- C9: `emit` preserves call order — folding any directive sequence onto an
accumulated sequence appends it in order — and the eight platform commands
of `Platform.__init__` appear in the accumulated sequence exactly in their
call order. -/
theorem C9_emit_order (acc cs : List String) :
    List.foldl emit acc cs = acc ++ cs ∧
    platformInitCmds = platformCommands := by
  constructor
  · induction cs generalizing acc with
    | nil => simp
    | cons c t ih => simp [emit, ih]
  · rfl
